import Mathlib

/-
Verification of the SEO-Management-Agentic-System repository.

Shallow embedding of the pure computational core of `src/tools/seo_tools.py`
and of the specialist wrappers in `src/agent/root_agent/subagent/*/agent.py`.
Network I/O (the `requests.get` calls) is modelled by explicit fetch-result
parameters of type `Except String _`: an `Except.error` value models a raised
requests exception (timeout, connection failure), an `Except.ok` value models
a returned response.  The wall-clock timestamp that `datetime.now()` injects
into every rendered report is modelled by an explicit `now : String` argument.
HTML parsing (BeautifulSoup) is modelled by record types holding the parse
results the code extracts; the parse step itself is treated as total, so the
`results.get(..., default)` fallbacks for a failed parse are never exercised.
Python string helpers (`lower`, `replace`, `strip`, `startswith`, `in`,
`upper`, `len`) are modelled over character lists (ASCII case folding).
-/

namespace SEOAgent

/-- Model of Python `str.lower` (ASCII case folding). -/
def pyLower (s : String) : String := ⟨s.data.map Char.toLower⟩

/-- Model of Python `str.upper` (ASCII case folding). -/
def pyUpper (s : String) : String := ⟨s.data.map Char.toUpper⟩

/-- Model of Python `len` on a string: the number of characters. -/
def pyLen (s : String) : Nat := s.data.length

/-- Worker for `pyReplace`: left-to-right, non-overlapping replacement of
`pat` by `repl`, exactly as Python `str.replace` scans.  The fuel argument
(instantiated with the length of the subject) keeps the recursion
structural, so that proofs can evaluate it by kernel reduction. -/
def replFuel : Nat → List Char → List Char → List Char → List Char
  | 0, _, _, s => s
  | _ + 1, _, _, [] => []
  | n + 1, pat, repl, c :: rest =>
    if pat ≠ [] && pat.isPrefixOf (c :: rest) then
      repl ++ replFuel n pat repl ((c :: rest).drop pat.length)
    else
      c :: replFuel n pat repl rest

/-- Model of Python `s.replace(pat, repl)` for a nonempty pattern. -/
def pyReplace (s pat repl : String) : String :=
  ⟨replFuel s.data.length pat.data repl.data s.data⟩

/-- Model of Python `s.strip(chr)` with a slash: remove every leading and
trailing slash character. -/
def pyStrip (s : String) : String :=
  ⟨((s.data.dropWhile (· == '/')).reverse.dropWhile (· == '/')).reverse⟩

/-- Worker for `pyContains`: does `pat` occur at some position of `s`. -/
def containsAux : List Char → List Char → Bool
  | [], pat => pat.isPrefixOf ([] : List Char)
  | c :: rest, pat => pat.isPrefixOf (c :: rest) || containsAux rest pat

/-- Model of the Python substring test `pat in s`. -/
def pyContains (s pat : String) : Bool := containsAux s.data pat.data

/-- Model of Python `s.startswith(p)`. -/
def pyStartsWith (s p : String) : Bool := p.data.isPrefixOf s.data

/-- Split a character list around the first occurrence of `pat`, returning
the part before and the part after, or `none` when `pat` does not occur. -/
def splitAtFirst : List Char → List Char → Option (List Char × List Char)
  | [], pat => if pat.isPrefixOf ([] : List Char) then some ([], []) else none
  | c :: rest, pat =>
    if pat.isPrefixOf (c :: rest) then some ([], (c :: rest).drop pat.length)
    else
      match splitAtFirst rest pat with
      | some (before, after) => some (c :: before, after)
      | none => none

/-- Error text of `validate_url` (src/tools/seo_tools.py line 32). -/
def invalidUrlMsg : String := "Invalid URL format. Must include http:// or https://"

/-- Embedding of `validate_url` (src/tools/seo_tools.py lines 18-34);
`urlparse` is modelled for http(s)-style URLs: the scheme is the text before
the first `://` and the netloc is the following text up to the first slash;
both must be nonempty. -/
def validate_url (url : String) : Bool × String :=
  match splitAtFirst url.data "://".data with
  | some (scheme, rest) =>
    let netloc := rest.takeWhile (· != '/')
    if scheme.isEmpty || netloc.isEmpty then (false, invalidUrlMsg) else (true, "")
  | none => (false, invalidUrlMsg)

/-- Embedding of the protocol-defaulting step of `audit_technical_seo`
(src/tools/seo_tools.py lines 48-50). -/
def withScheme (domain : String) : String :=
  if pyStartsWith domain "http://" || pyStartsWith domain "https://" then domain
  else "https://" ++ domain

/-- Parse results `audit_technical_seo` extracts from the homepage document
(src/tools/seo_tools.py lines 94-108). -/
structure AuditHtml where
  title : Option String
  hasMetaDescription : Bool
  h1Count : Nat

/-- A returned homepage response: status code plus parsed document. -/
structure AuditResponse where
  statusCode : Nat
  content : AuditHtml

/-- Fetch oracle for one audit run: the homepage fetch, and the `/robots.txt`
and `/sitemap.xml` probes (of which only the status code is consumed). -/
structure FetchEnv where
  homepage : Except String AuditResponse
  robots : Except String Nat
  sitemap : Except String Nat

/-- Did a probe return status 200 (fetch errors count as absent,
src/tools/seo_tools.py lines 77-91). -/
def statusOk200 : Except String Nat → Bool
  | .ok code => code == 200
  | .error _ => false

/-- The `results` dictionary of `audit_technical_seo` at the point where the
report is rendered. -/
structure AuditResults where
  domain : String
  has_ssl : Bool
  has_robots_txt : Bool
  has_sitemap : Bool
  is_accessible : Bool
  status_code : Nat
  has_title : Bool
  title_text : Option String
  has_meta_description : Bool
  h1_count : Nat
  overall_score : Nat

/-- Outcome of one technical-audit run: either a formatted failure text or a
full results structure together with the rendered report. -/
inductive AuditOutcome where
  | failure (text : String)
  | report (results : AuditResults) (text : String)

/-- Text carried by an audit outcome. -/
def AuditOutcome.textOf : AuditOutcome → String
  | .failure t => t
  | .report _ t => t

/-- Score carried by an audit outcome, when it is a report. -/
def AuditOutcome.scoreOf : AuditOutcome → Option Nat
  | .failure _ => none
  | .report r _ => some r.overall_score

/-- Whether an audit outcome is a scored report (not a failure text). -/
def AuditOutcome.isReport : AuditOutcome → Bool
  | .failure _ => false
  | .report _ _ => true

/-- Embedding of the priority-issue list of `audit_technical_seo`
(src/tools/seo_tools.py lines 145-153). -/
def priorityIssues (r : AuditResults) : List String :=
  (if r.has_ssl then [] else ["🔴 **CRITICAL:** Enable HTTPS/SSL for security and SEO"])
  ++ (if r.has_robots_txt then [] else ["🟠 **HIGH:** Create robots.txt to guide search engine crawlers"])
  ++ (if r.has_sitemap then [] else ["🟠 **HIGH:** Create XML sitemap to help search engines index your site"])
  ++ (if r.has_title then [] else ["🔴 **CRITICAL:** Add title tag to homepage"])

/-- Embedding of the report template of `audit_technical_seo`
(src/tools/seo_tools.py lines 125-167). -/
def auditReportText (now : String) (r : AuditResults) : String :=
  "✅ **Technical SEO Audit Complete**\n\n**Domain:** " ++ r.domain
  ++ "\n**Audit Date:** " ++ now
  ++ "\n**Overall Score:** " ++ toString r.overall_score ++ "/100\n\n### Technical Checks\n\n"
  ++ (if r.has_ssl then "✅" else "❌") ++ " **HTTPS/SSL:** "
  ++ (if r.has_ssl then "Enabled" else "Not enabled - CRITICAL ISSUE") ++ "\n"
  ++ (if r.has_robots_txt then "✅" else "❌") ++ " **robots.txt:** "
  ++ (if r.has_robots_txt then "Found" else "Missing") ++ "\n"
  ++ (if r.has_sitemap then "✅" else "❌") ++ " **sitemap.xml:** "
  ++ (if r.has_sitemap then "Found" else "Missing") ++ "\n"
  ++ (if r.has_title then "✅" else "❌") ++ " **Title Tag:** "
  ++ (if r.has_title then "Present" else "Missing") ++ "\n"
  ++ (if r.has_meta_description then "✅" else "❌") ++ " **Meta Description:** "
  ++ (if r.has_meta_description then "Present" else "Missing") ++ "\n"
  ++ (if r.h1_count ≥ 1 then "✅" else "❌") ++ " **H1 Tags:** "
  ++ toString r.h1_count ++ " found\n\n### Priority Issues\n\n"
  ++ (if (priorityIssues r).isEmpty then "✅ No critical issues found!\n\n"
      else String.join ((priorityIssues r).map (fun i => i ++ "\n\n")))
  ++ "### Recommendations\n\n1. **Improve Score:** Current score is "
  ++ toString r.overall_score
  ++ "/100. Focus on fixing priority issues first.\n2. **Mobile Optimization:** Test mobile responsiveness using Google\x27s Mobile-Friendly Test.\n3. **Page Speed:** Check loading speed with Google PageSpeed Insights.\n4. **Content:** Ensure all pages have unique titles and meta descriptions.\n"

/-- Embedding of `audit_technical_seo` (src/tools/seo_tools.py lines 37-173).
A raised homepage exception yields the formatted failure text; the
`/robots.txt` and `/sitemap.xml` probes convert any fetch error into
absence; the score is the weighted sum over the six checks. -/
def audit_technical_seo (env : FetchEnv) (now domain0 : String) : AuditOutcome :=
  let domain := withScheme domain0
  if (validate_url domain).1 = false then
    .failure ("❌ **Technical Audit Failed**\n\nError: " ++ (validate_url domain).2)
  else
    match env.homepage with
    | .error e =>
      .failure ("❌ **Technical Audit Failed**\n\nUnable to access " ++ domain ++ ": " ++ e)
    | .ok resp =>
      let has_ssl := pyStartsWith domain "https://"
      let has_robots_txt := statusOk200 env.robots
      let has_sitemap := statusOk200 env.sitemap
      let has_title := resp.content.title.isSome
      let has_meta_description := resp.content.hasMetaDescription
      let h1_count := resp.content.h1Count
      let score :=
        (if has_ssl then 20 else 0)
        + (if has_robots_txt then 15 else 0)
        + (if has_sitemap then 15 else 0)
        + (if has_title then 20 else 0)
        + (if has_meta_description then 15 else 0)
        + (if h1_count ≥ 1 then 15 else 0)
      let results : AuditResults :=
        ⟨domain, has_ssl, has_robots_txt, has_sitemap, resp.statusCode == 200,
         resp.statusCode, has_title, resp.content.title, has_meta_description,
         h1_count, score⟩
      .report results (auditReportText now results)

/-- Parse results `analyze_content` extracts from the fetched page
(src/tools/seo_tools.py lines 282-300): title text, meta-description content
attribute (`none` when the tag or the attribute is absent), the H1 texts and
the visible word count. -/
structure ContentPage where
  titleText : Option String
  metaDescText : Option String
  h1Texts : List String
  wordCount : Nat

/-- Python truthiness of an optional string: `None` and the empty string are
falsy. -/
def truthy : Option String → Bool
  | none => false
  | some s => !s.data.isEmpty

/-- Outcome of one content-analysis run. -/
inductive ContentOutcome where
  | failure (text : String)
  | report (score : Nat) (recommendations : List String) (text : String)

/-- Score carried by a content outcome, when it is a report. -/
def ContentOutcome.scoreOf : ContentOutcome → Option Nat
  | .failure _ => none
  | .report score _ _ => some score

/-- Embedding of the content-score computation of `analyze_content`
(src/tools/seo_tools.py lines 302-309). -/
def contentScore (p : ContentPage) : Nat :=
  (if truthy p.titleText then 20 else 0)
  + (if truthy p.metaDescText then 20 else 0)
  + (if p.h1Texts.length = 1 then 15 else 0)
  + (if p.wordCount ≥ 300 then 20 else 0)
  + (if p.wordCount ≥ 1000 then 10 else 0)
  + (if truthy p.metaDescText && (120 ≤ pyLen (p.metaDescText.getD "")
        && pyLen (p.metaDescText.getD "") ≤ 160) then 15 else 0)

/-- Embedding of the recommendation list of `analyze_content`
(src/tools/seo_tools.py lines 336-356). -/
def contentRecommendations (p : ContentPage) : List String :=
  let titleRecs :=
    if truthy p.titleText = false then
      ["🔴 **CRITICAL:** Add a title tag to this page"]
    else if pyLen (p.titleText.getD "") < 30 || pyLen (p.titleText.getD "") > 60 then
      ["🟠 **Title Optimization:** Current length is "
        ++ toString (pyLen (p.titleText.getD ""))
        ++ " chars. Aim for 30-60 characters."]
    else []
  let metaRecs :=
    if truthy p.metaDescText = false then
      ["🔴 **CRITICAL:** Add a meta description"]
    else if pyLen (p.metaDescText.getD "") < 120 || pyLen (p.metaDescText.getD "") > 160 then
      ["🟠 **Meta Description:** Current length is "
        ++ toString (pyLen (p.metaDescText.getD ""))
        ++ " chars. Aim for 120-160 characters."]
    else []
  let h1Recs :=
    if p.h1Texts.length = 0 then
      ["🔴 **CRITICAL:** Add an H1 tag to define the page topic"]
    else if p.h1Texts.length > 1 then
      ["🟡 **H1 Structure:** You have " ++ toString p.h1Texts.length
        ++ " H1 tags. Use only ONE H1 per page."]
    else []
  let wordRecs :=
    if p.wordCount < 300 then
      ["🟠 **Content Length:** Add more content. Current: "
        ++ toString p.wordCount ++ " words, Minimum: 300 words"]
    else []
  let recs := titleRecs ++ metaRecs ++ h1Recs ++ wordRecs
  if recs.isEmpty then
    ["✅ No critical issues found! This page follows SEO best practices."]
  else recs

/-- Embedding of the report template of `analyze_content`
(src/tools/seo_tools.py lines 312-368). -/
def contentReportText (now url : String) (p : ContentPage) : String :=
  "📝 **Content Analysis Complete**\n\n**URL:** " ++ url
  ++ "\n**Analysis Date:** " ++ now
  ++ "\n**Content Score:** " ++ toString (contentScore p)
  ++ "/100\n\n### SEO Elements\n\n**Title Tag:** "
  ++ (if truthy p.titleText then p.titleText.getD "" else "❌ Missing") ++ "\n"
  ++ (if truthy p.titleText && (30 ≤ pyLen (p.titleText.getD "")
        && pyLen (p.titleText.getD "") ≤ 60) then "✅" else "⚠️")
  ++ " Length: " ++ toString (if truthy p.titleText then pyLen (p.titleText.getD "") else 0)
  ++ " chars (Optimal: 30-60)\n\n**Meta Description:** "
  ++ (if truthy p.metaDescText then p.metaDescText.getD "" else "❌ Missing") ++ "\n"
  ++ (if truthy p.metaDescText && (120 ≤ pyLen (p.metaDescText.getD "")
        && pyLen (p.metaDescText.getD "") ≤ 160) then "✅" else "⚠️")
  ++ " Length: " ++ toString (if truthy p.metaDescText then pyLen (p.metaDescText.getD "") else 0)
  ++ " chars (Optimal: 120-160)\n\n**H1 Tags:** " ++ toString p.h1Texts.length
  ++ " found " ++ (if p.h1Texts.length = 1 then "✅" else "⚠️ Should have exactly 1") ++ "\n"
  ++ String.intercalate "\n" ((p.h1Texts.take 3).map (fun h => "- " ++ h))
  ++ "\n\n**Word Count:** " ++ toString p.wordCount ++ " words "
  ++ (if p.wordCount ≥ 300 then "✅" else "⚠️ Minimum 300 words recommended")
  ++ "\n\n### Recommendations\n\n"
  ++ String.join ((contentRecommendations p).map (fun r => r ++ "\n\n"))
  ++ "### Next Steps\n\n1. **Implement Fixes:** Address priority issues first (marked with 🔴)\n2. **Add Keywords:** Incorporate target keywords naturally in title, headings, and content\n3. **Improve Readability:** Use short paragraphs, bullet points, and subheadings\n4. **Add Internal Links:** Link to 3-5 related pages on your site\n5. **Add Media:** Include relevant images, videos, or infographics\n"

/-- Embedding of `analyze_content` (src/tools/seo_tools.py lines 258-374).
The page fetch is modelled by an `Except` value carrying the status code and
the parsed page; a raised fetch exception is caught by the outer handler and
rendered as the generic failure text. -/
def analyze_content (fetch : Except String (Nat × ContentPage)) (now url : String) :
    ContentOutcome :=
  if (validate_url url).1 = false then
    .failure ("❌ **Content Analysis Failed**\n\nError: " ++ (validate_url url).2)
  else
    match fetch with
    | .error e => .failure ("❌ **Content Analysis Failed**\n\nError: " ++ e)
    | .ok (status, page) =>
      if status ≠ 200 then
        .failure ("❌ **Content Analysis Failed**\n\nUnable to access " ++ url
          ++ " (Status: " ++ toString status ++ ")")
      else
        .report (contentScore page) (contentRecommendations page)
          (contentReportText now url page)

/-- Header block of the `check_performance` report
(src/tools/seo_tools.py lines 392-398). -/
def performanceHeader (now domain metric_type : String) : String :=
  "📊 **Performance Monitoring Report**\n\n**Domain:** " ++ domain
  ++ "\n**Report Date:** " ++ now
  ++ "\n**Metrics Type:** " ++ pyUpper metric_type ++ "\n\n"

/-- Rankings section of `check_performance` (src/tools/seo_tools.py lines 401-418). -/
def rankingsSection : String :=
  "### Keyword Rankings\n\n**Note:** Connect your Google Search Console account for real-time ranking data.\n\n**Priority Keywords to Track:**\n- Salesforce consulting\n- Real estate CRM\n- Salesforce implementation\n- CRM solutions India\n\n**Tracking Recommendations:**\n- Set up rank tracking in GSC\n- Monitor weekly position changes\n- Track competitor rankings\n- Focus on page 2 keywords (easier wins)\n\n"

/-- Traffic section of `check_performance` (src/tools/seo_tools.py lines 420-436). -/
def trafficSection : String :=
  "### Organic Traffic\n\n**Connect Google Analytics 4 for:**\n- Monthly visitor count\n- Traffic source breakdown\n- User engagement metrics\n- Conversion tracking\n\n**Key Metrics to Monitor:**\n- Organic sessions/month\n- Bounce rate (aim for <50%)\n- Average session duration\n- Pages per session\n- Goal completions\n\n"

/-- Speed section of `check_performance` (src/tools/seo_tools.py lines 438-458). -/
def speedSection : String :=
  "### Page Speed & Core Web Vitals\n\n**Test your site speed at:**\n- PageSpeed Insights (pagespeed.web.dev)\n- GTmetrix\n- WebPageTest\n\n**Core Web Vitals Standards:**\n- **LCP (Largest Contentful Paint):** <2.5s (Good)\n- **FID (First Input Delay):** <100ms (Good)\n- **CLS (Cumulative Layout Shift):** <0.1 (Good)\n\n**Speed Optimization Tips:**\n1. Compress images (use WebP format)\n2. Enable browser caching\n3. Minify CSS/JS\n4. Use a CDN\n5. Optimize server response time\n\n"

/-- Tools and action-items section of `check_performance`
(src/tools/seo_tools.py lines 460-488), emitted only for the selector `all`. -/
def toolsActionSection : String :=
  "### Recommended Tools\n\n1. **Google Search Console** (Free) - PRIORITY 1\n   - Set up at search.google.com/search-console\n   - Submit sitemap\n   - Monitor indexing status\n   - Track keyword performance\n\n2. **Google Analytics 4** (Free) - PRIORITY 1\n   - Track user behavior\n   - Set up conversion goals\n   - Monitor traffic sources\n   - Analyze user journeys\n\n3. **PageSpeed Insights** (Free)\n   - Test page speed\n   - Get optimization recommendations\n   - Monitor Core Web Vitals\n\n### Action Items\n\n1. ✅ **Set up Google Search Console** - PRIORITY 1\n2. ✅ **Install Google Analytics 4** - PRIORITY 1\n3. ✅ **Submit XML sitemap** - PRIORITY 2\n4. ✅ **Fix technical issues** - Run technical audit\n5. ✅ **Monitor weekly** - Check metrics every Monday\n\n"

/-- Embedding of `check_performance` (src/tools/seo_tools.py lines 377-494):
a section-gated static template selected by `metric_type`. -/
def check_performance (now domain metric_type : String) : String :=
  performanceHeader now domain metric_type
  ++ (if metric_type = "all" ∨ metric_type = "rankings" then rankingsSection else "")
  ++ (if metric_type = "all" ∨ metric_type = "traffic" then trafficSection else "")
  ++ (if metric_type = "all" ∨ metric_type = "speed" then speedSection else "")
  ++ (if metric_type = "all" then toolsActionSection else "")

/-- Embedding of `generate_seo_report` (src/tools/seo_tools.py lines 498-610):
a fixed template for the given domain, embedding command hints for the other
specialists; nothing in it depends on stored specialist payloads. -/
def generate_seo_report (now domain : String) : String :=
  "📋 **Comprehensive SEO Report**\n\n**Domain:** " ++ domain
  ++ "\n**Report Generated:** " ++ now
  ++ "\n\n---\n\n## Executive Summary\n\nThis report provides an overview of "
  ++ domain
  ++ "\x27s current SEO status and actionable recommendations for improvement.\n\n## 1. Technical SEO\n\nRun `audit "
  ++ domain
  ++ "` for detailed technical analysis including:\n- HTTPS/SSL configuration\n- robots.txt and sitemap.xml status\n- Mobile-friendliness\n- Page speed metrics\n- Core Web Vitals\n\n## 2. Content Strategy\n\nRun `analyze content at "
  ++ domain
  ++ "` for page-level optimization including:\n- Title tag and meta description optimization\n- Heading structure (H1-H6)\n- Content length and quality\n- Keyword usage\n- Internal linking\n\n## 3. Keyword Opportunities\n\nRun `research keywords for [your topic]` to discover:\n- High-volume target keywords\n- Long-tail opportunities\n- Search intent analysis\n- Competitor keyword gaps\n- Content cluster ideas\n\n## 4. Performance Metrics\n\nRun `check rankings for "
  ++ domain
  ++ "` to monitor:\n- Organic traffic trends\n- Keyword position tracking\n- Backlink profile analysis\n- Conversion metrics\n- Technical health scores\n\n## Priority Action Plan\n\n### Week 1: Foundation\n1. ✅ Fix critical technical issues (HTTPS, robots.txt, sitemap)\n2. ✅ Set up Google Search Console\n3. ✅ Set up Google Analytics 4\n4. ✅ Optimize homepage (title, meta, H1)\n\n### Week 2-4: Content\n1. ✅ Create 4-6 blog posts targeting long-tail keywords\n2. ✅ Optimize existing pages\n3. ✅ Build internal linking structure\n4. ✅ Add schema markup\n\n### Month 2-3: Growth\n1. ✅ Build 10-15 quality backlinks\n2. ✅ Monitor and adjust based on data\n3. ✅ Expand content clusters\n4. ✅ Improve page speed\n\n### Month 4-6: Scale\n1. ✅ Target more competitive keywords\n2. ✅ Expand content production to 8-10 posts/month\n3. ✅ Analyze competitor strategies\n4. ✅ Refine based on performance data\n\n## Expected Results\n\n**Month 1:** \n- Fix technical issues\n- Establish baseline metrics\n- First rankings for long-tail keywords\n\n**Month 3:**\n- 3-5 page 1 rankings\n- 50-100% increase in organic traffic\n- Improved crawl efficiency\n\n**Month 6:**\n- 10+ page 1 rankings\n- 200-300% increase in organic traffic\n- Established domain authority\n\n---\n\n**Next Step:** Run specific commands above for detailed analysis of each area.\n"

/-- Domain normalization performed by the technical-audit specialist
(src/agent/root_agent/subagent/technical_seo_agent/agent.py line 16):
lowercase, then remove every occurrence of `https://`, `http://` and `www.`
(Python `str.replace` replaces all occurrences, not only a leading one), then
strip leading and trailing slashes. -/
def domain_clean (domain : String) : String :=
  pyStrip (pyReplace (pyReplace (pyReplace (pyLower domain)
    "https://" "") "http://" "") "www." "")

/-- Rejection text of the technical-audit specialist
(src/agent/root_agent/subagent/technical_seo_agent/agent.py line 19). -/
def technicalRejection : String := "❌ This tool only works with gsbg.in domain"

/-- Embedding of `perform_technical_audit`
(src/agent/root_agent/subagent/technical_seo_agent/agent.py lines 12-25).
The underlying audit tool is abstracted as a function argument; the second
component of the result counts how often it was invoked, so that the
no-fetch-on-rejection property is expressible. -/
def perform_technical_audit (audit : String → String) (domain : String) : String × Nat :=
  if domain_clean domain ≠ "gsbg.in" then (technicalRejection, 0)
  else (audit "https://www.gsbg.in", 1)

/-- Embedding of the domain gate of `analyze_page_content`
(src/agent/root_agent/subagent/content_agent/agent.py lines 21-59): a
case-insensitive substring test for `gsbg.in`.  The underlying analysis tool
is abstracted as a function argument; the second component counts its
invocations. -/
def analyze_page_content (analyze : String → String) (page_url : String) : String × Nat :=
  if pyContains (pyLower page_url) "gsbg.in" = false then
    ("❌ This agent only analyzes GSBG.IN pages. URL provided: " ++ page_url, 0)
  else (analyze page_url, 1)

/-- Parameter list of `tools.seo_tools.generate_seo_report`
(src/tools/seo_tools.py line 498): it accepts only `domain`. -/
def seoReportParams : List String := ["domain"]

/-- Keyword arguments passed to `generate_seo_report` at the call site inside
`generate_gsbg_report` (src/agent/root_agent/subagent/reporting_agent/agent.py
lines 51-58). -/
def gsbgReportCallKwargs : List String :=
  ["domain", "report_type", "technical_data", "keyword_data",
   "content_data", "performance_data"]

/-- Python call binding: a call succeeds only when every keyword argument is
among the parameters of the called function; otherwise a `TypeError` is
raised. -/
def callBindsOk (params kwargs : List String) : Bool :=
  kwargs.all (fun k => params.contains k)

/-- Text of the `TypeError` raised when `generate_gsbg_report` calls
`generate_seo_report` with keyword arguments it does not accept. -/
def typeErrorMsg : String :=
  "generate_seo_report() got an unexpected keyword argument \x27report_type\x27"

/-- Embedding of `generate_gsbg_report`
(src/agent/root_agent/subagent/reporting_agent/agent.py lines 21-78): the
call to `generate_seo_report` with six keyword arguments is modelled by
Python call binding; the raised `TypeError` is caught by the surrounding
handler and rendered as the failure text. -/
def generate_gsbg_report (now report_type : String) : String :=
  if callBindsOk seoReportParams gsbgReportCallKwargs then
    generate_seo_report now "gsbg.in"
  else
    "❌ Report generation failed: " ++ typeErrorMsg

/-- The set of inputs that claim C7 asserts the technical-audit gate accepts:
the permitted domain, optionally preceded by a scheme and/or a leading
`www.`, optionally followed by one trailing slash, compared
case-insensitively.  This definition follows the words of the specification,
to be compared against the code-derived `domain_clean`. -/
def specGateForms : List String :=
  ["gsbg.in", "gsbg.in/",
   "www.gsbg.in", "www.gsbg.in/",
   "http://gsbg.in", "http://gsbg.in/",
   "http://www.gsbg.in", "http://www.gsbg.in/",
   "https://gsbg.in", "https://gsbg.in/",
   "https://www.gsbg.in", "https://www.gsbg.in/"]

/-- Decision procedure for membership in the spec-claimed accepted set. -/
def specGateAccepts (domain : String) : Bool :=
  specGateForms.contains (pyLower domain)

/-- Concrete fetch environment for the 85-point scenario of the
specification: https homepage with title, meta description and one H1;
robots.txt present; sitemap absent (status 404). -/
def env85 : FetchEnv :=
  ⟨.ok ⟨200, ⟨some "GSBG | Salesforce Consulting Partner", true, 1⟩⟩, .ok 200, .ok 404⟩

/-- Concrete fetch environment whose homepage fetch returns status 404
without raising, with robots.txt and sitemap present. -/
def env404 : FetchEnv :=
  ⟨.ok ⟨404, ⟨some "Not Found", true, 1⟩⟩, .ok 200, .ok 200⟩

/-- Concrete fetch environment in which the robots.txt probe times out while
the homepage and sitemap fetches succeed. -/
def envRobotsDown : FetchEnv :=
  ⟨.ok ⟨200, ⟨some "GSBG | Salesforce Consulting Partner", true, 1⟩⟩,
   .error "ReadTimeout", .ok 200⟩

/-- The environment `envRobotsDown` with the robots.txt probe succeeding
instead of timing out; all other fetches are identical. -/
def envRobotsUp : FetchEnv :=
  ⟨.ok ⟨200, ⟨some "GSBG | Salesforce Consulting Partner", true, 1⟩⟩,
   .ok 200, .ok 200⟩

/-- Concrete parsed page for the zero-score scenario of the specification:
no title, no meta description, three H1 tags, 150 words. -/
def cpage : ContentPage := ⟨none, none, ["A", "B", "C"], 150⟩

/-- Claim C3: for every input domain string whose normalized form differs
from the single permitted domain `gsbg.in`, the technical-audit specialist
returns the formatted rejection text and the underlying audit function is
never invoked (invocation count 0), so no network fetch is performed. -/
theorem technical_gate_rejects (audit : String → String) (domain : String)
    (h : domain_clean domain ≠ "gsbg.in") :
    perform_technical_audit audit domain = (technicalRejection, 0) := by
  simp [perform_technical_audit, h]

theorem technical_gate_rejects_witness :
    domain_clean "example.com" ≠ "gsbg.in" ∧
      perform_technical_audit (fun _ => "audited") "example.com" = (technicalRejection, 0) :=
  ⟨by decide, technical_gate_rejects (fun _ => "audited") "example.com" (by decide)⟩

/-- Claim C7 is false on the code: the input `gsbg.inwww.` is not the
permitted domain with an optional scheme or `www.` in front and an optional
trailing slash, yet its normalized form is `gsbg.in` and it passes the gate,
because `str.replace` removes `www.` (and the scheme strings) anywhere in
the input, not only as a leading segment. -/
theorem gate_accepts_beyond_spec_forms :
    domain_clean "gsbg.inwww." = "gsbg.in" ∧ specGateAccepts "gsbg.inwww." = false := by
  decide

/-- Claim C7 amended: the inclusion that survives is that every input of the
spec-claimed form (permitted domain, optional scheme and/or `www.`, optional
trailing slash, case-insensitive) does pass the gate; the normalization also
accepts further inputs, since it removes scheme and `www.` occurrences
anywhere in the string and strips any number of leading and trailing
slashes. -/
theorem spec_forms_pass_gate (domain : String)
    (h : specGateAccepts domain = true) : domain_clean domain = "gsbg.in" := by
  simp only [specGateAccepts, specGateForms, List.contains_cons, Bool.or_eq_true,
    beq_iff_eq, List.contains_nil, Bool.false_eq_true, or_false] at h
  rcases h with h | h | h | h | h | h | h | h | h | h | h | h <;>
    (simp only [domain_clean]; rw [h]; decide)

theorem spec_forms_pass_gate_witness :
    specGateAccepts "HTTPS://www.GSBG.in/" = true ∧
      domain_clean "HTTPS://www.GSBG.in/" = "gsbg.in" :=
  ⟨by decide, spec_forms_pass_gate "HTTPS://www.GSBG.in/" (by decide)⟩

/-- Claim C10: the content-analysis specialist gate is a case-insensitive
substring test; the analysis function is invoked exactly when the lowercase
URL contains `gsbg.in` anywhere, and every other URL is answered with the
formatted rejection without any invocation of the analysis (hence no
fetch). -/
theorem content_gate_substring (analyze : String → String) (url : String) :
    ((analyze_page_content analyze url).2 = 1 ↔
        pyContains (pyLower url) "gsbg.in" = true) ∧
      (pyContains (pyLower url) "gsbg.in" = false →
        analyze_page_content analyze url =
          ("❌ This agent only analyzes GSBG.IN pages. URL provided: " ++ url, 0)) := by
  cases hc : pyContains (pyLower url) "gsbg.in" <;>
    simp [analyze_page_content, hc]

theorem content_gate_substring_witness :
    (analyze_page_content (fun _ => "analysis") "https://evil.example.com/gsbg.in").2 = 1 :=
  (content_gate_substring (fun _ => "analysis") "https://evil.example.com/gsbg.in").1.mpr
    (by decide)

set_option maxRecDepth 16384 in
/-- Claim C6 meets a defect in the code: `generate_gsbg_report` calls
`generate_seo_report` with keyword arguments (`report_type` and four data
slots) that the function, which accepts only `domain`, does not bind, so the
call raises a `TypeError` that the surrounding handler converts into the
failure text.  The specialist therefore cannot return a report at all, let
alone one with four `not yet run` cross-reference sections, and indeed the
phrase `not yet run` occurs neither in the failure text nor in the report
template itself.  Only the no-exception half of the claim holds. -/
theorem reporting_call_type_error :
    generate_gsbg_report "2024-01-01 10:00" "comprehensive"
        = "❌ Report generation failed: " ++ typeErrorMsg
      ∧ callBindsOk seoReportParams gsbgReportCallKwargs = false
      ∧ pyContains (generate_gsbg_report "2024-01-01 10:00" "comprehensive")
          "not yet run" = false
      ∧ pyContains (generate_seo_report "2024-01-01 10:00" "gsbg.in")
          "not yet run" = false := by
  decide

/-- Claim C1: whenever the homepage fetch succeeds, the technical audit
returns a report whose score is the weighted sum
20·https + 15·robots + 15·sitemap + 20·title + 15·meta + 15·(h1 ≥ 1), the
score is at most 100, and in the 85-point scenario of the specification
(https, robots.txt present, sitemap absent, title, meta description, one
H1) the score is 85. -/
theorem audit_score_formula (env : FetchEnv) (resp : AuditResponse) (now d : String)
    (hv : (validate_url (withScheme d)).1 = true)
    (hh : env.homepage = .ok resp) :
    ∃ r t, audit_technical_seo env now d = .report r t
      ∧ r.overall_score =
          20 * (if pyStartsWith (withScheme d) "https://" then 1 else 0)
        + 15 * (if statusOk200 env.robots then 1 else 0)
        + 15 * (if statusOk200 env.sitemap then 1 else 0)
        + 20 * (if resp.content.title.isSome then 1 else 0)
        + 15 * (if resp.content.hasMetaDescription then 1 else 0)
        + 15 * (if resp.content.h1Count ≥ 1 then 1 else 0)
      ∧ r.overall_score ≤ 100
      ∧ (pyStartsWith (withScheme d) "https://" = true →
         statusOk200 env.robots = true →
         statusOk200 env.sitemap = false →
         resp.content.title.isSome = true →
         resp.content.hasMetaDescription = true →
         resp.content.h1Count = 1 →
         r.overall_score = 85) := by
  simp only [audit_technical_seo, hh, hv, Bool.true_eq_false, if_false, ite_false]
  refine ⟨_, _, rfl, ?_, ?_, ?_⟩
  · show (if pyStartsWith (withScheme d) "https://" then 20 else 0) + _ + _ + _ + _ + _ = _
    split_ifs <;> norm_num
  · show (if pyStartsWith (withScheme d) "https://" then 20 else 0) + _ + _ + _ + _ + _ ≤ 100
    split_ifs <;> norm_num
  · intro h1 h2 h3 h4 h5 h6
    show (if pyStartsWith (withScheme d) "https://" then 20 else 0) + _ + _ + _ + _ + _ = 85
    simp [h1, h2, h3, h4, h5, h6]

theorem audit_score_formula_witness :
    ∃ r t, audit_technical_seo env85 "2024-01-01 10:00" "gsbg.in" = .report r t
      ∧ r.overall_score = 85 := by
  obtain ⟨r, t, heq, _, _, h85⟩ :=
    audit_score_formula env85
      ⟨200, ⟨some "GSBG | Salesforce Consulting Partner", true, 1⟩⟩
      "2024-01-01 10:00" "gsbg.in" (by decide) rfl
  exact ⟨r, t, heq,
    h85 (by decide) (by decide) (by decide) (by decide) (by decide) rfl⟩

/-- Claim C4: when the homepage fetch succeeds but the robots.txt probe
raises a fetch error, the audit still completes with a report (no exception
escapes), `has_robots_txt` is false, every other check is computed exactly
as in the run where the robots.txt probe succeeds with status 200, and the
score of that all-else-equal successful run exceeds this one by exactly the
15-point robots.txt component. -/
theorem audit_robots_error_isolated (env : FetchEnv) (resp : AuditResponse)
    (e now d : String)
    (hv : (validate_url (withScheme d)).1 = true)
    (hh : env.homepage = .ok resp)
    (hr : env.robots = .error e) :
    ∃ r t, audit_technical_seo env now d = .report r t
      ∧ r.has_robots_txt = false
      ∧ ∀ env2 : FetchEnv, env2.homepage = env.homepage →
          env2.sitemap = env.sitemap → env2.robots = .ok 200 →
          ∃ r2 t2, audit_technical_seo env2 now d = .report r2 t2
            ∧ r2.overall_score = r.overall_score + 15
            ∧ r2.has_ssl = r.has_ssl
            ∧ r2.has_sitemap = r.has_sitemap
            ∧ r2.has_title = r.has_title
            ∧ r2.has_meta_description = r.has_meta_description
            ∧ r2.h1_count = r.h1_count
            ∧ r2.is_accessible = r.is_accessible := by
  simp only [audit_technical_seo, hh, hv, hr, statusOk200, Bool.true_eq_false,
    if_false, ite_false]
  refine ⟨_, _, rfl, rfl, ?_⟩
  intro env2 h2h h2s h2r
  simp only [audit_technical_seo, h2h, h2s, h2r, hv, Bool.true_eq_false,
    if_false, ite_false]
  refine ⟨_, _, rfl, ?_, rfl, rfl, rfl, rfl, rfl, rfl⟩
  simp only [statusOk200, beq_self_eq_true, Bool.false_eq_true, if_true, ite_true,
    if_false, ite_false]
  omega

theorem audit_robots_error_isolated_witness :
    ∃ r t r2 t2,
      audit_technical_seo envRobotsDown "2024-01-01 10:00" "gsbg.in" = .report r t
      ∧ r.has_robots_txt = false
      ∧ audit_technical_seo envRobotsUp "2024-01-01 10:00" "gsbg.in" = .report r2 t2
      ∧ r2.overall_score = r.overall_score + 15 := by
  obtain ⟨r, t, heq, hrob, hall⟩ :=
    audit_robots_error_isolated envRobotsDown
      ⟨200, ⟨some "GSBG | Salesforce Consulting Partner", true, 1⟩⟩
      "ReadTimeout" "2024-01-01 10:00" "gsbg.in" (by decide) rfl rfl
  obtain ⟨r2, t2, heq2, hscore, _⟩ := hall envRobotsUp rfl rfl rfl
  exact ⟨r, t, r2, t2, heq, hrob, heq2, hscore⟩

/-- Claim C8 is false on the code: a homepage response with a non-200 status
code and no raised exception does not make the audit return a failure
report; the audit proceeds and returns a scored report (here with every
other check passing, score 100). -/
theorem audit_non200_counterexample :
    (audit_technical_seo env404 "2024-01-01 10:00" "gsbg.in").isReport = true
      ∧ (audit_technical_seo env404 "2024-01-01 10:00" "gsbg.in").scoreOf = some 100 := by
  decide

/-- Claim C8 amended: only a raised fetch exception produces the formatted
failure report; a non-200 status without an exception lets the audit
proceed to a scored report in which `is_accessible` is false and
`status_code` records the received status, and no exception surfaces
either way. -/
theorem audit_non200_still_scored (env : FetchEnv) (resp : AuditResponse)
    (now d : String)
    (hv : (validate_url (withScheme d)).1 = true)
    (hh : env.homepage = .ok resp)
    (hs : resp.statusCode ≠ 200) :
    (∃ r t, audit_technical_seo env now d = .report r t
       ∧ r.is_accessible = false ∧ r.status_code = resp.statusCode)
    ∧ ∀ (env2 : FetchEnv) (e : String), env2.homepage = .error e →
        audit_technical_seo env2 now d =
          .failure ("❌ **Technical Audit Failed**\n\nUnable to access "
            ++ withScheme d ++ ": " ++ e) := by
  constructor
  · simp only [audit_technical_seo, hh, hv, Bool.true_eq_false, if_false, ite_false]
    refine ⟨_, _, rfl, ?_, rfl⟩
    show (resp.statusCode == 200) = false
    simpa using hs
  · intro env2 e h2h
    simp [audit_technical_seo, h2h, hv]

theorem audit_non200_still_scored_witness :
    ∃ r t, audit_technical_seo env404 "2024-01-01 10:00" "gsbg.in" = .report r t
      ∧ r.is_accessible = false ∧ r.status_code = 404 := by
  obtain ⟨⟨r, t, heq, hacc, hst⟩, _⟩ :=
    audit_non200_still_scored env404 ⟨404, ⟨some "Not Found", true, 1⟩⟩
      "2024-01-01 10:00" "gsbg.in" (by decide) rfl (by decide)
  exact ⟨r, t, heq, hacc, hst⟩

/-- Claim C2: whenever the page fetch returns status 200, the content
analysis returns a report whose score is the weighted sum
20·title + 20·meta + 15·(exactly one h1) + 20·(words ≥ 300) +
10·(words ≥ 1000) + 15·(meta length in [120,160]); and for a page with no
title, no meta description, three H1 tags and 150 words the score is 0 and
the recommendation list is exactly the four entries for the missing title,
the missing meta description, the H1 count and the word count. -/
theorem content_score_formula (page : ContentPage) (now url : String)
    (hv : (validate_url url).1 = true) :
    ∃ recs txt, analyze_content (.ok (200, page)) now url
        = .report (contentScore page) recs txt
      ∧ contentScore page =
          20 * (if truthy page.titleText then 1 else 0)
        + 20 * (if truthy page.metaDescText then 1 else 0)
        + 15 * (if page.h1Texts.length = 1 then 1 else 0)
        + 20 * (if page.wordCount ≥ 300 then 1 else 0)
        + 10 * (if page.wordCount ≥ 1000 then 1 else 0)
        + 15 * (if truthy page.metaDescText
                  && (120 ≤ pyLen (page.metaDescText.getD "")
                      && pyLen (page.metaDescText.getD "") ≤ 160) then 1 else 0)
      ∧ (page.titleText = none → page.metaDescText = none →
         page.h1Texts.length = 3 → page.wordCount = 150 →
           contentScore page = 0
           ∧ recs = ["🔴 **CRITICAL:** Add a title tag to this page",
               "🔴 **CRITICAL:** Add a meta description",
               "🟡 **H1 Structure:** You have 3 H1 tags. Use only ONE H1 per page.",
               "🟠 **Content Length:** Add more content. Current: 150 words, Minimum: 300 words"]) := by
  refine ⟨contentRecommendations page, contentReportText now url page, ?_, ?_, ?_⟩
  · simp [analyze_content, hv]
  · unfold contentScore
    split_ifs <;> norm_num
  · intro h1 h2 h3 h4
    refine ⟨?_, ?_⟩
    · simp [contentScore, truthy, h1, h2, h3, h4]
    · simp only [contentRecommendations, truthy, h1, h2, h3, h4]
      decide

theorem content_score_formula_witness :
    ∃ recs txt, analyze_content (.ok (200, cpage)) "2024-01-01 10:00"
        "https://www.gsbg.in/services" = .report 0 recs txt
      ∧ recs = ["🔴 **CRITICAL:** Add a title tag to this page",
          "🔴 **CRITICAL:** Add a meta description",
          "🟡 **H1 Structure:** You have 3 H1 tags. Use only ONE H1 per page.",
          "🟠 **Content Length:** Add more content. Current: 150 words, Minimum: 300 words"] := by
  obtain ⟨recs, txt, heq, _, hconc⟩ :=
    content_score_formula cpage "2024-01-01 10:00" "https://www.gsbg.in/services"
      (by decide)
  obtain ⟨h0, hr⟩ := hconc rfl rfl rfl rfl
  rw [h0] at heq
  exact ⟨recs, txt, heq, hr⟩

/-- Claim C5 is false on the code as stated: the rendered report embeds the
invocation timestamp (`datetime.now()`), so two invocations at different
clock readings produce the same score but report texts that differ in the
date line; character-for-character identity of the text fails. -/
theorem report_text_time_dependent :
    (audit_technical_seo env85 "2024-01-01 10:00" "gsbg.in").scoreOf
        = (audit_technical_seo env85 "2024-01-01 10:01" "gsbg.in").scoreOf
      ∧ (audit_technical_seo env85 "2024-01-01 10:00" "gsbg.in").textOf
        ≠ (audit_technical_seo env85 "2024-01-01 10:01" "gsbg.in").textOf := by
  decide

/-- Claim C5 amended: the scoring-and-rendering functions are deterministic
in their inputs including the clock reading — the score does not depend on
the timestamp at all, and with an equal timestamp the whole outcome
(score and report text) is identical across invocations; only the rendered
text varies with the timestamp. -/
theorem specialist_scores_deterministic (env : FetchEnv)
    (fetch : Except String (Nat × ContentPage)) (t1 t2 d url : String) :
    (audit_technical_seo env t1 d).scoreOf = (audit_technical_seo env t2 d).scoreOf
    ∧ (t1 = t2 → audit_technical_seo env t1 d = audit_technical_seo env t2 d)
    ∧ (analyze_content fetch t1 url).scoreOf = (analyze_content fetch t2 url).scoreOf
    ∧ (t1 = t2 → analyze_content fetch t1 url = analyze_content fetch t2 url) := by
  refine ⟨?_, fun h => by rw [h], ?_, fun h => by rw [h]⟩
  · by_cases hval : (validate_url (withScheme d)).1 = false
    · simp [audit_technical_seo, hval, AuditOutcome.scoreOf]
    · cases hh : env.homepage with
      | error e => simp [audit_technical_seo, hval, hh, AuditOutcome.scoreOf]
      | ok resp => simp [audit_technical_seo, hval, hh, AuditOutcome.scoreOf]
  · by_cases hval : (validate_url url).1 = false
    · simp [analyze_content, hval, ContentOutcome.scoreOf]
    · cases fetch with
      | error e => simp [analyze_content, hval, ContentOutcome.scoreOf]
      | ok sp =>
        obtain ⟨status, page⟩ := sp
        by_cases hs : status = 200
        · simp [analyze_content, hval, hs, ContentOutcome.scoreOf]
        · simp [analyze_content, hval, hs, ContentOutcome.scoreOf]

theorem specialist_scores_deterministic_witness :
    (audit_technical_seo env85 "2024-01-01 09:00" "gsbg.in").scoreOf
      = (audit_technical_seo env85 "2024-02-02 18:30" "gsbg.in").scoreOf :=
  (specialist_scores_deterministic env85 (.ok (200, cpage))
    "2024-01-01 09:00" "2024-02-02 18:30" "gsbg.in" "https://www.gsbg.in").1

/-- Claim C9: the performance report contains exactly the sections its
metric-type selector enables — `all` yields the rankings, traffic, speed and
tools/action-items sections, each of `rankings`, `traffic` and `speed`
yields only its own section after the header, and every other selector
yields the header alone (a normal report, not an error). -/
theorem check_performance_sections (now domain sel : String) :
    check_performance now domain "all"
        = performanceHeader now domain "all" ++ rankingsSection ++ trafficSection
          ++ speedSection ++ toolsActionSection
      ∧ check_performance now domain "rankings"
        = performanceHeader now domain "rankings" ++ rankingsSection
      ∧ check_performance now domain "traffic"
        = performanceHeader now domain "traffic" ++ trafficSection
      ∧ check_performance now domain "speed"
        = performanceHeader now domain "speed" ++ speedSection
      ∧ (sel ≠ "all" → sel ≠ "rankings" → sel ≠ "traffic" → sel ≠ "speed" →
          check_performance now domain sel = performanceHeader now domain sel) := by
  refine ⟨?_, ?_, ?_, ?_, ?_⟩
  · simp [check_performance]
  · simp [check_performance, String.append_empty]
  · simp [check_performance, String.append_empty]
  · simp [check_performance, String.append_empty]
  · intro h1 h2 h3 h4
    simp [check_performance, h1, h2, h3, h4, String.append_empty]

theorem check_performance_sections_witness :
    check_performance "2024-01-01 10:00" "gsbg.in" "backlinks"
      = performanceHeader "2024-01-01 10:00" "gsbg.in" "backlinks" :=
  (check_performance_sections "2024-01-01 10:00" "gsbg.in" "backlinks").2.2.2.2
    (by decide) (by decide) (by decide) (by decide)

end SEOAgent




